import Mathlib

/-!
Verification development for the `patientsim` package: a shallow embedding of the
provider client adapters (`src/patientsim/client/*.py`), the Doctor agent
(`src/patientsim/doctor.py`), the ED and OP simulation controllers
(`src/patientsim/environment/*.py`), the dataset downloader
(`src/patientsim/dataset/manager.py`) and the shared utilities
(`src/patientsim/utils/common_utils.py`), together with theorems settling the
specification claims about them.

Python exceptions are modelled with an explicit error type; machine behaviour
such as `str.format` and the `re.findall` pattern used by `prompt_valid_check`
is embedded as executable Lean functions over character lists.
-/

/-- The Python exceptions raised by the embedded code.  Error payloads are kept
structured: `invalidInputMissingKeys` carries the `missing_keys` list that
`prompt_valid_check` interpolates (via `colorstr`) into its `ValueError`
message, and `keyError` carries the offending placeholder name of a
`str.format` `KeyError`. -/
inductive PyError where
  | valueError (msg : String)
  | invalidInputMissingKeys (keys : List String)
  | keyError (key : String)
  | indexError (msg : String)
  | typeError (msg : String)
  deriving DecidableEq, Repr

/-- The `\x7b` character (opening curly brace). -/
def lbrace : Char := Char.ofNat 123

/-- The `\x7d` character (closing curly brace). -/
def rbrace : Char := Char.ofNat 125

/-- Newline, which the regex metacharacter `.` does not match. -/
def nlChar : Char := Char.ofNat 10

/-- Python truthiness of an optional string argument (`if system_prompt:`):
`None` and the empty string are falsy, every other string is truthy. -/
def truthy : Option String → Bool
  | none => false
  | some s => s != ""

/-- One left-to-right pass implementing
`re.findall(r'\x7b(.*?)\x7d', prompt)` from `common_utils.prompt_valid_check`.
The second argument is `none` outside a candidate match and `some acc` (the
reversed group characters) after an unconsumed opening brace.  A lazy group
`(.*?)` closes at the first following closing brace; `.` cannot cross a
newline, and a candidate that dies on a newline or at the end of input cannot
be rescued by a later starting position inside it (any such restart meets the
same newline or end before any closing brace), so the scan resumes in literal
mode. -/
def reFindAux : List Char → Option (List Char) → List String
  | [], _ => []
  | c :: rest, none =>
      if c = lbrace then reFindAux rest (some []) else reFindAux rest none
  | c :: rest, some acc =>
      if c = rbrace then String.mk acc.reverse :: reFindAux rest none
      else if c = nlChar then reFindAux rest none
      else reFindAux rest (some (c :: acc))

/-- `re.findall(r'\x7b(.*?)\x7d', prompt)`: every lazily-matched brace group in
`prompt`, in order. -/
def reFindallBraces (prompt : String) : List String :=
  reFindAux prompt.toList none

/-- `common_utils.prompt_valid_check(prompt, data_dict)`.  The dictionary is
represented by its key list (the function only performs `key not in data_dict`
membership tests).  Raises `ValueError` carrying the missing keys when some
extracted placeholder is absent from the keys. -/
def promptValidCheck (prompt : String) (data_keys : List String) : Except PyError Unit :=
  let keys := reFindallBraces prompt
  let missing_keys := keys.filter (fun key => !(data_keys.contains key))
  if missing_keys ≠ [] then
    Except.error (PyError.invalidInputMissingKeys missing_keys)
  else
    Except.ok ()

/-- Keyword lookup of a `str.format` replacement field among keyword
arguments. -/
def kwLookup (kw : List (String × String)) (name : String) : Option (String × String) :=
  kw.find? (fun p => p.fst == name)

/-- Message of the `ValueError` raised by `str.format` on an unterminated
opening brace. -/
def singleLbraceMsg : String := "Single \x27\x7b\x27 encountered in format string"

/-- Message of the `ValueError` raised by `str.format` on a lone closing
brace. -/
def singleRbraceMsg : String := "Single \x27\x7d\x27 encountered in format string"

/-- Message of the `ValueError` raised by `str.format` when the input ends
inside a replacement field. -/
def expectedRbraceMsg : String := "expected \x27\x7d\x27 before end of string"

/-- Message of the `IndexError` raised by `str.format` when an auto-numbered
field `\x7b\x7d` is used with keyword arguments only. -/
def autoFieldMsg : String := "Replacement index 0 out of range for positional args tuple"

/-- Message of the `ValueError` raised by `str.format` on an opening brace
inside a field name. -/
def nestedLbraceMsg : String := "unexpected \x27\x7b\x27 in field name"

/-- Scanner mode for the `str.format` mini-language: literal text, just after
an opening brace, just after a closing brace, or inside a replacement field
(reversed accumulated name characters). -/
inductive FmtMode where
  | literal
  | sawL
  | sawR
  | field (acc : List Char)
  deriving DecidableEq, Repr

/-- CPython `str.format` restricted to the template syntax this repository's
prompt templates use: literal text, doubled-brace escapes, and simple named
replacement fields (no attribute access, indexing, conversion or format
specifications).  Fields are resolved left to right against keyword arguments;
the first unknown name raises `KeyError`, an empty field raises the
auto-numbering `IndexError`, and unbalanced braces raise `ValueError` — all as
in CPython. -/
def formatScanAux (kw : List (String × String)) : List Char → FmtMode → Except PyError String
  | [], .literal => Except.ok ""
  | [], .sawL => Except.error (PyError.valueError singleLbraceMsg)
  | [], .sawR => Except.error (PyError.valueError singleRbraceMsg)
  | [], .field _ => Except.error (PyError.valueError expectedRbraceMsg)
  | c :: rest, .literal =>
      if c = lbrace then formatScanAux kw rest .sawL
      else if c = rbrace then formatScanAux kw rest .sawR
      else (formatScanAux kw rest .literal).map (fun s => c.toString ++ s)
  | c :: rest, .sawL =>
      if c = lbrace then (formatScanAux kw rest .literal).map (fun s => lbrace.toString ++ s)
      else if c = rbrace then Except.error (PyError.indexError autoFieldMsg)
      else formatScanAux kw rest (.field [c])
  | c :: rest, .sawR =>
      if c = rbrace then (formatScanAux kw rest .literal).map (fun s => rbrace.toString ++ s)
      else Except.error (PyError.valueError singleRbraceMsg)
  | c :: rest, .field acc =>
      if c = rbrace then
        match kwLookup kw (String.mk acc.reverse) with
        | some p => (formatScanAux kw rest .literal).map (fun s => p.snd ++ s)
        | none => Except.error (PyError.keyError (String.mk acc.reverse))
      else if c = lbrace then Except.error (PyError.valueError nestedLbraceMsg)
      else formatScanAux kw rest (.field (c :: acc))

/-- `tmpl.format(**kw)` for the simple-named-field subset of the format
mini-language (see `formatScanAux`). -/
def pyFormat (tmpl : String) (kw : List (String × String)) : Except PyError String :=
  formatScanAux kw tmpl.toList .literal

/-- The sequence of replacement-field names a template mentions, in scan
order (`""` for an empty auto-numbered field), or `none` when the template is
syntactically invalid for `str.format`.  Companion of `formatScanAux` used to
state claims about templates. -/
def formatFieldsAux : List Char → FmtMode → Option (List String)
  | [], .literal => some []
  | [], _ => none
  | c :: rest, .literal =>
      if c = lbrace then formatFieldsAux rest .sawL
      else if c = rbrace then formatFieldsAux rest .sawR
      else formatFieldsAux rest .literal
  | c :: rest, .sawL =>
      if c = lbrace then formatFieldsAux rest .literal
      else if c = rbrace then (formatFieldsAux rest .literal).map (fun fs => "" :: fs)
      else formatFieldsAux rest (.field [c])
  | c :: rest, .sawR =>
      if c = rbrace then formatFieldsAux rest .literal
      else none
  | c :: rest, .field acc =>
      if c = rbrace then (formatFieldsAux rest .literal).map (fun fs => String.mk acc.reverse :: fs)
      else if c = lbrace then none
      else formatFieldsAux rest (.field (c :: acc))

/-- The replacement-field names of a template, in order, when it parses. -/
def formatFields (tmpl : String) : Option (List String) :=
  formatFieldsAux tmpl.toList .literal

/-- The `patient_conditions` dictionary a `DoctorAgent` builds in `_init_env`
(keys `age`, `gender`, `arrival_transport`, each defaulting to `"N/A"`). -/
structure PatientConditions where
  age : String
  gender : String
  arrival_transport : String
  deriving DecidableEq, Repr

/-- The state of a `DoctorAgent` (`doctor.py`) relevant to prompt building:
its turn budget, current turn counter, diagnosis count, patient conditions and
the system prompt fixed at construction.  Integer fields are Python `int`s. -/
structure DoctorAgent where
  max_inferences : Int
  current_inference : Int
  top_k_diagnosis : Int
  patient_conditions : PatientConditions
  system_prompt : String
  doctor_greet : String
  deriving DecidableEq, Repr

/-- The keyword arguments `DoctorAgent.build_prompt` passes to
`system_prompt_template.format(...)`: `total_idx`, `curr_idx`, `remain_idx`,
`top_k_diagnosis` and the unpacked `patient_conditions`. -/
def doctorKwargs (a : DoctorAgent) : List (String × String) :=
  [("total_idx", toString a.max_inferences),
   ("curr_idx", toString a.current_inference),
   ("remain_idx", toString (a.max_inferences - a.current_inference)),
   ("top_k_diagnosis", toString a.top_k_diagnosis),
   ("age", a.patient_conditions.age),
   ("gender", a.patient_conditions.gender),
   ("arrival_transport", a.patient_conditions.arrival_transport)]

/-- `DoctorAgent.build_prompt(system_prompt_template)`: formats the template
with the agent's turn/diagnosis parameters and patient conditions and returns
the resolved text. -/
def DoctorAgent.buildPrompt (a : DoctorAgent) (system_prompt_template : String) : Except PyError String :=
  pyFormat system_prompt_template (doctorKwargs a)

/-- `DoctorAgent.__init__` restricted to prompt construction: sets
`current_inference = 0`, stores the parameters, and fixes
`self.system_prompt = self.build_prompt(system_prompt_template)`.  The
template itself is not retained on the agent. -/
def DoctorAgent.init (system_prompt_template : String) (max_inferences top_k_diagnosis : Int)
    (conds : PatientConditions) (doctor_greet : String) : Except PyError DoctorAgent :=
  let a0 : DoctorAgent :=
    { max_inferences := max_inferences
      current_inference := 0
      top_k_diagnosis := top_k_diagnosis
      patient_conditions := conds
      system_prompt := ""
      doctor_greet := doctor_greet }
  (a0.buildPrompt system_prompt_template).map (fun sp => { a0 with system_prompt := sp })

/-- Message of the `TypeError` Python raises when `EDSimulation._sanity_check`
executes `self.doctor_agent.build_prompt()` without the required
`system_prompt_template` argument. -/
def buildPromptMissingArgMsg : String :=
  "DoctorAgent.build_prompt() missing 1 required positional argument: \x27system_prompt_template\x27"

/-- `EDSimulation._sanity_check` (`ed_simulation.py`): when the Doctor agent's
`max_inferences` differs from the simulation's, the source assigns the
simulation's value to the agent and then calls
`self.doctor_agent.build_prompt()` with no argument — `build_prompt` requires
`system_prompt_template`, so Python raises `TypeError` and construction of the
controller aborts.  On agreement the agent is returned unchanged. -/
def EDSimulation.sanityCheck (sim_max_inferences : Int) (doctor_agent : DoctorAgent) :
    Except PyError DoctorAgent :=
  if ¬ (doctor_agent.max_inferences = sim_max_inferences) then
    Except.error (PyError.typeError buildPromptMissingArgMsg)
  else
    Except.ok doctor_agent

/-- One external `wget` invocation issued by `DatasetManager` (its argument
vector). -/
structure WgetCmd where
  args : List String
  deriving DecidableEq, Repr

/-- The `wget` command `DatasetManager._download_all` runs. -/
def downloadAllCmd (username password temp_dir url : String) : WgetCmd :=
  ⟨["wget", "-r", "-N", "-c", "-np",
    "--user=" ++ username, "--password=" ++ password, "-P", temp_dir, url]⟩

/-- The `wget` command `DatasetManager._download_profile` runs. -/
def downloadProfileCmd (username password file_path file_url : String) : WgetCmd :=
  ⟨["wget", "--user=" ++ username, "--password=" ++ password, "-O", file_path, file_url]⟩

/-- `DatasetManager.download(username, password, dataset_version, mode)`
(`dataset/manager.py`).  Interactive credential prompts are modelled by the
`prompt_user`/`prompt_pass` oracle values used when the corresponding argument
is `None`.  The result is the list of download-tool invocations the call
issues; an unknown `mode` raises `ValueError` before any such invocation. -/
def DatasetManager.download (save_path prompt_user prompt_pass : String)
    (username password : Option String) (dataset_version mode : String) :
    Except PyError (List WgetCmd) :=
  let username := username.getD prompt_user
  let password := password.getD prompt_pass
  if mode = "all" then
    Except.ok [downloadAllCmd username password (save_path ++ "/temp_download")
      ("https://physionet.org/files/persona-patientsim/" ++ dataset_version ++ "/")]
  else if mode = "profile" then
    Except.ok [downloadProfileCmd username password (save_path ++ "/patient_profile.json")
      ("https://physionet.org/files/persona-patientsim/" ++ dataset_version ++ "/patient_profile.json")]
  else
    Except.error (PyError.valueError
      ("Invalid mode: " ++ mode ++ ". Must be \x27all\x27 or \x27profile\x27"))

/-- Message content in an OpenAI-style history entry: a plain string, or the
part list `[\x7b"type": "text", "text": t\x7d, ...]` that `__make_payload`
builds for user messages (represented by its text fields). -/
inductive OAIContent where
  | str (s : String)
  | parts (texts : List String)
  deriving DecidableEq, Repr

/-- One OpenAI-style chat message `\x7b"role": r, "content": c\x7d`. -/
structure OAIMsg where
  role : String
  content : OAIContent
  deriving DecidableEq, Repr

/-- Session state of `GPTClient` (`client/openai_client.py`): the explicit
message history and the two private flags
`_multi_turn_system_prompt_already_set` and `__first_turn`. -/
structure GPTClient where
  histories : List OAIMsg
  multi_turn_system_prompt_already_set : Bool
  first_turn : Bool
  deriving DecidableEq, Repr

/-- The state `GPTClient.__init__` establishes. -/
def GPTClient.fresh : GPTClient :=
  { histories := [], multi_turn_system_prompt_already_set := false, first_turn := true }

/-- `GPTClient.__make_payload(user_prompt)`: a single user message whose
content is a one-element text part list. -/
def GPTClient.makePayload (user_prompt : String) : List OAIMsg :=
  [{ role := "user", content := OAIContent.parts [user_prompt] }]

/-- `GPTClient.reset_history(keep_system_prompt)`: resets `__first_turn`
unconditionally; when keeping, scans for the first `"system"`-role message and
retains only it; otherwise clears the history and the already-set flag. -/
def GPTClient.resetHistory (c : GPTClient) (keep_system_prompt : Bool := false) : GPTClient :=
  let system_message :=
    if keep_system_prompt then c.histories.find? (fun m => m.role == "system") else none
  let already_set :=
    if keep_system_prompt then c.multi_turn_system_prompt_already_set else false
  { histories := match system_message with
      | some m => [m]
      | none => []
    multi_turn_system_prompt_already_set := already_set
    first_turn := true }

/-- The multi-turn branch of `GPTClient.__call__`.  The provider response is
the oracle argument `reply`.  Returns the new session state, the returned
text, and the number of warning log lines emitted by the one-system-prompt
guard. -/
def GPTClient.multiTurnCall (c : GPTClient) (system_prompt : Option String)
    (user_prompt reply : String) : GPTClient × String × Nat :=
  let discard := c.multi_turn_system_prompt_already_set && truthy system_prompt
  let warns := if discard && c.first_turn then 1 else 0
  let first_turn := if discard then false else c.first_turn
  let system_prompt := if discard then none else system_prompt
  let histories :=
    if truthy system_prompt then
      c.histories ++ [{ role := "system", content := OAIContent.str (system_prompt.getD "") }]
    else c.histories
  let already_set :=
    if truthy system_prompt then true else c.multi_turn_system_prompt_already_set
  let histories := histories ++ GPTClient.makePayload user_prompt
  let histories := histories ++ [{ role := "assistant", content := OAIContent.str reply }]
  ({ histories := histories,
     multi_turn_system_prompt_already_set := already_set,
     first_turn := first_turn }, reply, warns)

/-- The single-turn branch of `GPTClient.__call__`: resets the session
(keeping no system prompt), builds a one-off request of an optional system
message followed by the user payload, and returns the reply without persisting
it.  The third component is the request list sent to the provider. -/
def GPTClient.singleTurnCall (c : GPTClient) (system_prompt : Option String)
    (user_prompt reply : String) : GPTClient × String × List OAIMsg :=
  let c := c.resetHistory
  let payloads :=
    (if truthy system_prompt then
      [{ role := "system", content := OAIContent.str (system_prompt.getD "") }]
     else []) ++ GPTClient.makePayload user_prompt
  (c, reply, payloads)

/-- `GPTAzureClient.reset_history` (`client/openai_azure_client.py`) is
line-for-line identical to `GPTClient.reset_history`. -/
def GPTAzureClient.resetHistory (c : GPTClient) (keep_system_prompt : Bool := false) : GPTClient :=
  GPTClient.resetHistory c keep_system_prompt

/-- The multi-turn branch of `GPTAzureClient.__call__`, line-for-line
identical to the `GPTClient` one. -/
def GPTAzureClient.multiTurnCall : GPTClient → Option String → String → String → GPTClient × String × Nat :=
  GPTClient.multiTurnCall

/-- The single-turn branch of `GPTAzureClient.__call__`, line-for-line
identical to the `GPTClient` one. -/
def GPTAzureClient.singleTurnCall : GPTClient → Option String → String → String → GPTClient × String × List OAIMsg :=
  GPTClient.singleTurnCall

/-- One `google.genai` content item (role `"user"` or `"model"`, text
parts). -/
structure GContent where
  role : String
  parts : List String
  deriving DecidableEq, Repr

/-- The chat session `GeminiClient` opens with `client.chats.create`: its
`system_instruction` configuration and accumulated history. -/
structure GeminiChat where
  system_instruction : Option String
  history : List GContent
  deriving DecidableEq, Repr

/-- Session state of `GeminiClient` (`client/google_client.py`): the optional
open chat session and the flags `_multi_turn_chat_already_set` and
`__first_turn`. -/
structure GeminiClient where
  chat : Option GeminiChat
  multi_turn_chat_already_set : Bool
  first_turn : Bool
  deriving DecidableEq, Repr

/-- The state `GeminiClient.__init__` establishes. -/
def GeminiClient.fresh : GeminiClient :=
  { chat := none, multi_turn_chat_already_set := false, first_turn := true }

/-- `GeminiClient.reset_history()`: drops the chat session and clears both
flags. -/
def GeminiClient.resetHistory (_ : GeminiClient) : GeminiClient :=
  { chat := none, multi_turn_chat_already_set := false, first_turn := true }

/-- `GeminiClient.__make_payload(user_prompt)`. -/
def GeminiClient.makePayload (user_prompt : String) : List GContent :=
  [{ role := "user", parts := [user_prompt] }]

/-- The multi-turn branch of `GeminiClient.__call__`: after the
one-system-prompt guard, creates the chat session on first use (fixing
`system_instruction` from the possibly-discarded prompt and setting the
already-set flag), then sends the user message; the chat session accumulates
the user content and the model reply. -/
def GeminiClient.multiTurnCall (c : GeminiClient) (system_prompt : Option String)
    (user_prompt reply : String) : GeminiClient × String × Nat :=
  let discard := c.multi_turn_chat_already_set && truthy system_prompt
  let warns := if discard && c.first_turn then 1 else 0
  let first_turn := if discard then false else c.first_turn
  let system_prompt := if discard then none else system_prompt
  let (chat, already_set) : GeminiChat × Bool :=
    match c.chat with
    | none =>
        ({ system_instruction := if truthy system_prompt then system_prompt else none
           history := [] }, true)
    | some ch => (ch, c.multi_turn_chat_already_set)
  let chat :=
    { chat with history :=
        chat.history ++ GeminiClient.makePayload user_prompt ++ [{ role := "model", parts := [reply] }] }
  ({ chat := some chat,
     multi_turn_chat_already_set := already_set,
     first_turn := first_turn }, reply, warns)

/-- The single-turn branch of `GeminiClient.__call__`: resets the session,
then issues a one-off `generate_content` request carrying the user payload and
the system instruction; nothing is persisted.  The third component is the
request (contents, system instruction) sent to the provider. -/
def GeminiClient.singleTurnCall (c : GeminiClient) (system_prompt : Option String)
    (user_prompt reply : String) : GeminiClient × String × (List GContent × Option String) :=
  let c := c.resetHistory
  (c, reply, (GeminiClient.makePayload user_prompt, system_prompt))

/-- Modelled from the spec: `GeminiVertexClient` is not present under `src/`
(only its constructor call sites are); §4.2 specifies its conversation
contract as identical to the consumer Gemini adapter, differing only in
authentication and transport.  Multi-turn invocation. -/
def GeminiVertexClient.multiTurnCall : GeminiClient → Option String → String → String → GeminiClient × String × Nat :=
  GeminiClient.multiTurnCall

/-- Modelled from the spec: single-turn invocation of `GeminiVertexClient`
(see `GeminiVertexClient.multiTurnCall`). -/
def GeminiVertexClient.singleTurnCall : GeminiClient → Option String → String → String → GeminiClient × String × (List GContent × Option String) :=
  GeminiClient.singleTurnCall

/-- A sequence of multi-turn invocations: each element supplies the optional
system prompt, the user prompt and the provider's reply for one call.  Returns
the final session state and the total number of guard warnings logged. -/
def GPTClient.runTrace (c : GPTClient) : List (Option String × String × String) → GPTClient × Nat
  | [] => (c, 0)
  | (sys, usr, rep) :: rest =>
      let step := c.multiTurnCall sys usr rep
      let tail := step.1.runTrace rest
      (tail.1, step.2.2 + tail.2)

/-- Trace of multi-turn invocations of `GPTAzureClient` (identical adapter
logic). -/
def GPTAzureClient.runTrace : GPTClient → List (Option String × String × String) → GPTClient × Nat :=
  GPTClient.runTrace

/-- A sequence of multi-turn invocations of `GeminiClient`; returns the final
session state and the total number of guard warnings logged. -/
def GeminiClient.runTrace (c : GeminiClient) : List (Option String × String × String) → GeminiClient × Nat
  | [] => (c, 0)
  | (sys, usr, rep) :: rest =>
      let step := c.multiTurnCall sys usr rep
      let tail := step.1.runTrace rest
      (tail.1, step.2.2 + tail.2)

/-- Modelled from the spec: trace of multi-turn invocations of
`GeminiVertexClient` (see `GeminiVertexClient.multiTurnCall`). -/
def GeminiVertexClient.runTrace : GeminiClient → List (Option String × String × String) → GeminiClient × Nat :=
  GeminiClient.runTrace

/-- The `"system"`-role messages of a history. -/
def systemMsgs (ms : List OAIMsg) : List OAIMsg :=
  ms.filter (fun m => m.role == "system")

/-- The number of calls in a trace that supply a (Python-truthy) non-empty
system prompt. -/
def countTruthy (tr : List (Option String × String × String)) : Nat :=
  (tr.filter (fun t => truthy t.fst)).length

/-- One transcript entry `\x7b"role": r, "content": c\x7d` of a simulation
(`role` is `"Doctor"`, `"Patient"` or `"Staff"`). -/
structure DialogEntry where
  role : String
  content : String
  deriving DecidableEq, Repr

/-- `dialog_history[-1]["content"]` (the transcript is never empty when
read). -/
def lastContent (dialog : List DialogEntry) : String :=
  match dialog.getLast? with
  | some e => e.content
  | none => ""

/-- The literal suffix both controllers append to the agent prompt on the
final loop iteration. -/
def finalTurnSuffix : String :=
  "\nThis is the final turn. Now, you must provide your top5 differential diagnosis."

/-- The `for inference_idx in range(max_inferences)` loop of
`EDSimulation.simulate` (`environment/ed_simulation.py`).  Agents are
response oracles mapping the prompt they are called with to their reply
(`patientResp`, `doctorResp`); the deterministic detector
`detect_ed_termination` — imported by the source but not defined under
`src/` — is the abstract predicate `detect` (per spec §4.11 it is a pure
predicate over a single reply string); the optional LLM checker is the oracle
`checkerResp` applied to the formatted checker prompt `checkerPrompt` of the
reply.  `fuel` counts the remaining iterations (`inference_idx =
max_inferences - fuel`). -/
def EDSimulation.simLoop (max_inferences : Nat) (patientResp doctorResp : String → String)
    (detect : String → Bool) (enable_llm_termination_check : Bool)
    (checkerPrompt checkerResp : String → String) :
    Nat → List DialogEntry → List DialogEntry
  | 0, dialog => dialog
  | fuel + 1, dialog =>
      let inference_idx := max_inferences - (fuel + 1)
      let patient_response := patientResp (lastContent dialog)
      let dialog := dialog ++ [{ role := "Patient", content := patient_response }]
      let doctor_user_prompt :=
        if inference_idx = max_inferences - 1 then lastContent dialog ++ finalTurnSuffix
        else lastContent dialog
      let doctor_response := doctorResp doctor_user_prompt
      let dialog := dialog ++ [{ role := "Doctor", content := doctor_response }]
      if detect doctor_response then dialog
      else if enable_llm_termination_check then
        if (checkerResp (checkerPrompt doctor_response)).trim.toUpper = "Y" then dialog
        else EDSimulation.simLoop max_inferences patientResp doctorResp detect
          enable_llm_termination_check checkerPrompt checkerResp fuel dialog
      else EDSimulation.simLoop max_inferences patientResp doctorResp detect
        enable_llm_termination_check checkerPrompt checkerResp fuel dialog

/-- `EDSimulation.simulate`: starts the transcript with the Doctor greeting
and runs the alternating loop; returns the transcript. -/
def EDSimulation.simulate (max_inferences : Nat) (doctor_greet : String)
    (patientResp doctorResp : String → String) (detect : String → Bool)
    (enable_llm_termination_check : Bool) (checkerPrompt checkerResp : String → String) :
    List DialogEntry :=
  EDSimulation.simLoop max_inferences patientResp doctorResp detect
    enable_llm_termination_check checkerPrompt checkerResp max_inferences
    [{ role := "Doctor", content := doctor_greet }]

/-- The record `OPSimulation.simulate` returns (`environment/op_simulation.py`):
the dialog transcript and the two agents' accumulated token usages (read from
`patient_agent.client.token_usages` and `admin_staff_agent.client.token_usages`;
the agents are not present under `src/` and are modelled from spec §4.6/§4.7,
which give them a client adapter exposing accumulated token-usage data). -/
structure OPSimulationOutput (τ : Type) where
  dialog_history : List DialogEntry
  patient_token_usage : τ
  admin_staff_token_usage : τ
  deriving DecidableEq, Repr

/-- The `for inference_idx in range(max_inferences)` loop of
`OPSimulation.simulate`, with roles `"Patient"`/`"Staff"`, structured as
`EDSimulation.simLoop`.  The second result component instruments the loop with
the number of termination-checker client invocations issued (not part of the
source's return value). -/
def OPSimulation.simLoop (max_inferences : Nat) (patientResp staffResp : String → String)
    (detect : String → Bool) (enable_llm_termination_check : Bool)
    (checkerPrompt checkerResp : String → String) :
    Nat → List DialogEntry → Nat → List DialogEntry × Nat
  | 0, dialog, checker_calls => (dialog, checker_calls)
  | fuel + 1, dialog, checker_calls =>
      let inference_idx := max_inferences - (fuel + 1)
      let patient_response := patientResp (lastContent dialog)
      let dialog := dialog ++ [{ role := "Patient", content := patient_response }]
      let staff_user_prompt :=
        if inference_idx = max_inferences - 1 then lastContent dialog ++ finalTurnSuffix
        else lastContent dialog
      let staff_response := staffResp staff_user_prompt
      let dialog := dialog ++ [{ role := "Staff", content := staff_response }]
      if detect staff_response then (dialog, checker_calls)
      else if enable_llm_termination_check then
        if (checkerResp (checkerPrompt staff_response)).trim.toUpper = "Y" then
          (dialog, checker_calls + 1)
        else OPSimulation.simLoop max_inferences patientResp staffResp detect
          enable_llm_termination_check checkerPrompt checkerResp fuel dialog (checker_calls + 1)
      else OPSimulation.simLoop max_inferences patientResp staffResp detect
        enable_llm_termination_check checkerPrompt checkerResp fuel dialog checker_calls

/-- `OPSimulation.simulate`: starts the transcript with the Staff greeting,
runs the alternating loop, and returns the three-field output record (token
usages are the values read off the two agents' clients at return).  The second
component counts termination-checker client invocations. -/
def OPSimulation.simulate {τ : Type} (max_inferences : Nat) (staff_greet : String)
    (patientResp staffResp : String → String) (detect : String → Bool)
    (enable_llm_termination_check : Bool) (checkerPrompt checkerResp : String → String)
    (patient_token_usage admin_staff_token_usage : τ) : OPSimulationOutput τ × Nat :=
  let run := OPSimulation.simLoop max_inferences patientResp staffResp detect
    enable_llm_termination_check checkerPrompt checkerResp max_inferences
    [{ role := "Staff", content := staff_greet }] 0
  ({ dialog_history := run.1
     patient_token_usage := patient_token_usage
     admin_staff_token_usage := admin_staff_token_usage }, run.2)

/-- A custom Doctor system-prompt template referencing the turn budget. -/
def mismatchTemplate : String := "You may ask \x7btotal_idx\x7d questions in total."

/-- The Doctor agent `DoctorAgent.init mismatchTemplate 3 5 ...` produces:
turn budget `3`, the default diagnosis count, default patient conditions and
the resolved system prompt. -/
def doctorAgentBudget3 : DoctorAgent :=
  { max_inferences := 3
    current_inference := 0
    top_k_diagnosis := 5
    patient_conditions := { age := "N/A", gender := "N/A", arrival_transport := "N/A" }
    system_prompt := "You may ask 3 questions in total."
    doctor_greet := "Hello, how can I help you?" }

/-- C1.  Constructing an ED Simulation controller whose `max_inferences`
differs from its Doctor agent's does not rebuild the agent's prompt: the
source's `_sanity_check` calls `build_prompt()` without the required
`system_prompt_template` argument, so construction raises `TypeError`
(`build_prompt`'s return value, a string, is in any case discarded by the
call, and the agent does not retain its template after `__init__`).  With an
agent built at budget `3` and a controller budget of `5`, the agent's prompt
resolves `total_idx` to `3` and the controller's construction fails instead of
rebuilding it to `5`. -/
theorem ed_sanity_check_mismatch_raises_type_error :
    DoctorAgent.init mismatchTemplate 3 5
        { age := "N/A", gender := "N/A", arrival_transport := "N/A" }
        "Hello, how can I help you?" = Except.ok doctorAgentBudget3 ∧
    doctorAgentBudget3.system_prompt = "You may ask 3 questions in total." ∧
    doctorAgentBudget3.max_inferences = 3 ∧
    EDSimulation.sanityCheck 5 doctorAgentBudget3
      = Except.error (PyError.typeError buildPromptMissingArgMsg) :=
  ⟨rfl, rfl, rfl, rfl⟩

/-- C6.  For the direct and enterprise-gateway OpenAI-compatible adapters,
`reset_history(keep_system_prompt := true)` retains exactly the first
`"system"`-role message (and nothing else) and preserves the already-set flag,
`reset_history(keep_system_prompt := false)` yields the fresh empty state with
the flag cleared, and the first-turn flag is reset unconditionally; on the
history `[system "S", user "U", assistant "A"]` keeping yields exactly
`[system "S"]`. -/
theorem openai_reset_history_semantics :
    (∀ c : GPTClient,
      (c.resetHistory true).histories
          = (match c.histories.find? (fun m => m.role == "system") with
             | some m => [m]
             | none => []) ∧
      (c.resetHistory true).multi_turn_system_prompt_already_set
          = c.multi_turn_system_prompt_already_set ∧
      (c.resetHistory true).first_turn = true ∧
      c.resetHistory false = GPTClient.fresh) ∧
    ((GPTClient.mk [⟨"system", OAIContent.str "S"⟩, ⟨"user", OAIContent.str "U"⟩,
        ⟨"assistant", OAIContent.str "A"⟩] true false).resetHistory true
      = ⟨[⟨"system", OAIContent.str "S"⟩], true, true⟩) ∧
    ((GPTClient.mk [⟨"system", OAIContent.str "S"⟩, ⟨"user", OAIContent.str "U"⟩,
        ⟨"assistant", OAIContent.str "A"⟩] true false).resetHistory false = GPTClient.fresh) ∧
    (∀ (c : GPTClient) (keep : Bool),
      GPTAzureClient.resetHistory c keep = c.resetHistory keep) := by
  refine ⟨fun c => ⟨rfl, rfl, rfl, rfl⟩, by decide, by decide, fun c keep => rfl⟩

/-- C7.  For every adapter and every prior session state, a single-turn call
first resets the session to the fresh empty state (keeping no system prompt),
issues a one-off request carrying the supplied system prompt and user prompt,
and returns the reply text; after the call the session retains no record of
the exchange (for the Gemini Vertex adapter, modelled from spec §4.2 as
contract-identical to the consumer adapter). -/
theorem single_turn_call_resets_and_stateless :
    (∀ (c : GPTClient) (sys : Option String) (u r : String),
      (c.singleTurnCall sys u r).1 = GPTClient.fresh ∧
      (c.singleTurnCall sys u r).2.1 = r ∧
      (c.singleTurnCall sys u r).2.2
        = (if truthy sys then [{ role := "system", content := OAIContent.str (sys.getD "") }]
           else []) ++ GPTClient.makePayload u) ∧
    (∀ (c : GPTClient) (sys : Option String) (u r : String),
      GPTAzureClient.singleTurnCall c sys u r = c.singleTurnCall sys u r) ∧
    (∀ (c : GeminiClient) (sys : Option String) (u r : String),
      (c.singleTurnCall sys u r).1 = GeminiClient.fresh ∧
      (c.singleTurnCall sys u r).2.1 = r ∧
      (c.singleTurnCall sys u r).2.2 = (GeminiClient.makePayload u, sys)) ∧
    (∀ (c : GeminiClient) (sys : Option String) (u r : String),
      GeminiVertexClient.singleTurnCall c sys u r = c.singleTurnCall sys u r) := by
  exact ⟨fun c sys u r => ⟨rfl, rfl, rfl⟩, fun c sys u r => rfl,
    fun c sys u r => ⟨rfl, rfl, rfl⟩, fun c sys u r => rfl⟩

/-- C8.  For every `mode` other than `"all"` and `"profile"`,
`DatasetManager.download` raises `ValueError` and issues no download-tool
invocation (the result carries no `wget` command). -/
theorem dataset_download_invalid_mode (save_path prompt_user prompt_pass : String)
    (username password : Option String) (dataset_version mode : String)
    (h1 : mode ≠ "all") (h2 : mode ≠ "profile") :
    DatasetManager.download save_path prompt_user prompt_pass username password
        dataset_version mode
      = Except.error (PyError.valueError
          ("Invalid mode: " ++ mode ++ ". Must be \x27all\x27 or \x27profile\x27")) := by
  simp [DatasetManager.download, h1, h2]

/-- Witness for C8 at `mode = "bogus"`. -/
theorem dataset_download_invalid_mode_witness :
    DatasetManager.download "data" "alice" "pw" none none "1.0.0" "bogus"
      = Except.error (PyError.valueError
          "Invalid mode: bogus. Must be \x27all\x27 or \x27profile\x27") :=
  (dataset_download_invalid_mode "data" "alice" "pw" none none "1.0.0" "bogus"
    (by decide) (by decide)).trans rfl

/-- The two brace characters are distinct (used to discharge scanner
branches). -/
theorem lbrace_ne_rbrace : lbrace ≠ rbrace := by decide

/-- C9 counterexample.  The prompt `"\x7b\x7b\x7d"` contains the two-character
substring `"\x7b\x7d"`, yet the extraction regex captures the single
placeholder `"\x7b"` (the first opening brace starts the lazy match), so with
the non-empty key `"\x7b"` in the data dictionary `prompt_valid_check`
succeeds — refuting the claim that any prompt containing `"\x7b\x7d"` is
rejected whenever all keys are non-empty. -/
theorem prompt_valid_check_empty_placeholder_counterexample :
    ("\x7b\x7b\x7d" = "\x7b" ++ "\x7b\x7d" ++ "") ∧
    (∀ k ∈ ["\x7b"], k ≠ "") ∧
    reFindallBraces "\x7b\x7b\x7d" = ["\x7b"] ∧
    promptValidCheck "\x7b\x7b\x7d" ["\x7b"] = Except.ok () := by
  exact ⟨rfl, by decide, rfl, rfl⟩

/-- C9 (amended).  Whenever the placeholder-extraction regex actually yields
the empty placeholder name on a prompt (which an occurrence of `"\x7b\x7d"`
produces unless its opening brace is consumed by an earlier lazy match), and
every key of the data dictionary is non-empty, `prompt_valid_check` raises the
InvalidInput error and the empty name is among the reported missing keys. -/
theorem prompt_valid_check_empty_placeholder_rejected (prompt : String)
    (data_keys : List String)
    (hempty : "" ∈ reFindallBraces prompt)
    (hkeys : ∀ k ∈ data_keys, k ≠ "") :
    ∃ missing, promptValidCheck prompt data_keys
        = Except.error (PyError.invalidInputMissingKeys missing) ∧ "" ∈ missing := by
  have hc : data_keys.contains "" = false := by
    cases h : data_keys.contains "" with
    | false => rfl
    | true => exact absurd rfl (hkeys "" (by simpa using h))
  have hp : (!(data_keys.contains "")) = true := by rw [hc]; rfl
  have hm : "" ∈ (reFindallBraces prompt).filter (fun key => !(data_keys.contains key)) :=
    List.mem_filter.mpr ⟨hempty, hp⟩
  have hne := List.ne_nil_of_mem hm
  exact ⟨_, by simp only [promptValidCheck]; rw [if_pos hne], hm⟩

/-- Witness for the amended C9 at the prompt `"\x7b\x7d"` and data key
`"name"`. -/
theorem prompt_valid_check_empty_placeholder_rejected_witness :
    ∃ missing, promptValidCheck "\x7b\x7d" ["name"]
        = Except.error (PyError.invalidInputMissingKeys missing) ∧ "" ∈ missing :=
  prompt_valid_check_empty_placeholder_rejected "\x7b\x7d" ["name"] (by decide) (by decide)

/-- If a syntactically valid template's first replacement field with no
matching keyword argument is the non-empty name `n`, the `str.format` scan
raises `KeyError n` (the guard `kwLookup kw "" = none` rules out the empty
name being a keyword, so the fields before `n`, all keywords, are
non-empty). -/
theorem formatScan_first_missing_key (kw : List (String × String))
    (hkw : kwLookup kw "" = none) (l : List Char) :
    ∀ (mode : FmtMode) (fs : List String) (n : String),
      formatFieldsAux l mode = some fs →
      fs.find? (fun f => (kwLookup kw f).isNone) = some n →
      n ≠ "" →
      formatScanAux kw l mode = Except.error (PyError.keyError n) := by
  induction l with
  | nil =>
      intro mode fs n h1 h2 h3
      cases mode with
      | literal =>
          rw [formatFieldsAux] at h1
          cases h1
          cases h2
      | sawL => cases h1
      | sawR => cases h1
      | field acc => cases h1
  | cons c rest ih =>
      intro mode fs n h1 h2 h3
      cases mode with
      | literal =>
          rw [formatFieldsAux] at h1
          rw [formatScanAux]
          by_cases hL : c = lbrace
          · rw [if_pos hL] at h1 ⊢
            exact ih _ _ _ h1 h2 h3
          · rw [if_neg hL] at h1 ⊢
            by_cases hR : c = rbrace
            · rw [if_pos hR] at h1 ⊢
              exact ih _ _ _ h1 h2 h3
            · rw [if_neg hR] at h1 ⊢
              rw [ih _ _ _ h1 h2 h3]
              rfl
      | sawL =>
          rw [formatFieldsAux] at h1
          rw [formatScanAux]
          by_cases hL : c = lbrace
          · rw [if_pos hL] at h1 ⊢
            rw [ih _ _ _ h1 h2 h3]
            rfl
          · rw [if_neg hL] at h1 ⊢
            by_cases hR : c = rbrace
            · rw [if_pos hR] at h1
              rcases Option.map_eq_some'.mp h1 with ⟨fs2, hfs2, rfl⟩
              rw [List.find?_cons_of_pos _ (by rw [hkw]; rfl)] at h2
              cases h2
              exact absurd rfl h3
            · rw [if_neg hR] at h1 ⊢
              exact ih _ _ _ h1 h2 h3
      | sawR =>
          rw [formatFieldsAux] at h1
          rw [formatScanAux]
          by_cases hR : c = rbrace
          · rw [if_pos hR] at h1 ⊢
            rw [ih _ _ _ h1 h2 h3]
            rfl
          · rw [if_neg hR] at h1
            cases h1
      | field acc =>
          rw [formatFieldsAux] at h1
          rw [formatScanAux]
          by_cases hR : c = rbrace
          · rw [if_pos hR] at h1 ⊢
            rcases Option.map_eq_some'.mp h1 with ⟨fs2, hfs2, rfl⟩
            cases hp : kwLookup kw (String.mk acc.reverse) with
            | none =>
                rw [List.find?_cons_of_pos _ (by rw [hp]; rfl)] at h2
                cases h2
                rfl
            | some p =>
                rw [List.find?_cons_of_neg _ (by rw [hp]; simp)] at h2
                rw [ih _ _ _ hfs2 h2 h3]
                rfl
          · rw [if_neg hR] at h1 ⊢
            by_cases hL : c = lbrace
            · rw [if_pos hL] at h1
              cases h1
            · rw [if_neg hL] at h1 ⊢
              exact ih _ _ _ h1 h2 h3

/-- C2 counterexample.  On the template `"\x7bb1\x7d \x7bb2\x7d"` — two
placeholders, neither among `build_prompt`'s seven data keys —
`DoctorAgent.build_prompt` raises `str.format`'s `KeyError` for the first
missing placeholder only; it does not raise `prompt_valid_check`'s
InvalidInput error listing every missing placeholder (that error, shown for
contrast on the same template and keys, is a different value), and
`build_prompt` never invokes `prompt_valid_check`. -/
theorem build_prompt_unknown_placeholder_counterexample :
    doctorAgentBudget3.buildPrompt "\x7bb1\x7d \x7bb2\x7d"
        = Except.error (PyError.keyError "b1") ∧
    promptValidCheck "\x7bb1\x7d \x7bb2\x7d" ((doctorKwargs doctorAgentBudget3).map Prod.fst)
        = Except.error (PyError.invalidInputMissingKeys ["b1", "b2"]) ∧
    (Except.error (PyError.keyError "b1") : Except PyError String)
        ≠ Except.error (PyError.invalidInputMissingKeys ["b1", "b2"]) := by
  refine ⟨rfl, rfl, fun h => ?_⟩
  injection h with h2
  cases h2

/-- C2 (amended).  For every syntactically valid system-prompt template whose
replacement fields include a name outside the seven data keys (`total_idx`,
`curr_idx`, `remain_idx`, `top_k_diagnosis`, `age`, `gender`,
`arrival_transport`), `DoctorAgent.build_prompt` fails with `str.format`'s
`KeyError` naming the first such placeholder in template order (assuming it is
a named, non-empty placeholder) — not with `prompt_valid_check`'s InvalidInput
error listing all of them. -/
theorem build_prompt_unknown_placeholder_key_error (a : DoctorAgent) (tmpl : String)
    (fs : List String) (n : String)
    (hparse : formatFields tmpl = some fs)
    (hfirst : fs.find? (fun f => (kwLookup (doctorKwargs a) f).isNone) = some n)
    (hne : n ≠ "") :
    a.buildPrompt tmpl = Except.error (PyError.keyError n) := by
  have hkw : kwLookup (doctorKwargs a) "" = none := rfl
  exact formatScan_first_missing_key (doctorKwargs a) hkw tmpl.toList .literal fs n
    hparse hfirst hne

/-- Witness for the amended C2: a template with unknown placeholders `bogus`
and `nope` fails with `KeyError "bogus"`. -/
theorem build_prompt_unknown_placeholder_key_error_witness :
    doctorAgentBudget3.buildPrompt "Hi \x7bbogus\x7d and \x7bnope\x7d"
        = Except.error (PyError.keyError "bogus") :=
  build_prompt_unknown_placeholder_key_error doctorAgentBudget3
    "Hi \x7bbogus\x7d and \x7bnope\x7d" ["bogus", "nope"] "bogus" rfl rfl (by decide)

/-- C4.  For every turn budget of at least `1`, if the deterministic ED
termination detector flags the Doctor's very first reply, then
`EDSimulation.simulate` returns a transcript of exactly three entries — the
initial Doctor greeting, one Patient turn, one Doctor turn — regardless of the
budget and of the LLM-checker configuration.  (The first Doctor reply answers
the Patient's reply to the greeting, suffixed with the final-turn instruction
when the budget is exactly `1`.) -/
theorem ed_simulate_first_reply_termination (max_inferences : Nat) (doctor_greet : String)
    (patientResp doctorResp : String → String) (detect : String → Bool)
    (enable_llm : Bool) (checkerPrompt checkerResp : String → String)
    (h1 : 1 ≤ max_inferences)
    (hdet : detect (doctorResp (if max_inferences = 1
        then patientResp doctor_greet ++ finalTurnSuffix
        else patientResp doctor_greet)) = true) :
    EDSimulation.simulate max_inferences doctor_greet patientResp doctorResp detect
        enable_llm checkerPrompt checkerResp
      = [{ role := "Doctor", content := doctor_greet },
         { role := "Patient", content := patientResp doctor_greet },
         { role := "Doctor", content := doctorResp (if max_inferences = 1
             then patientResp doctor_greet ++ finalTurnSuffix
             else patientResp doctor_greet) }] := by
  obtain ⟨k, rfl⟩ : ∃ k, max_inferences = k + 1 := ⟨max_inferences - 1, by omega⟩
  cases k with
  | zero =>
      rw [EDSimulation.simulate, EDSimulation.simLoop]
      simp only [Nat.sub_self, lastContent, List.getLast?_singleton, List.getLast?_concat,
        Nat.add_sub_cancel] at hdet ⊢
      rw [if_pos hdet]
      simp
  | succ j =>
      rw [EDSimulation.simulate, EDSimulation.simLoop]
      simp only [Nat.sub_self, lastContent, List.getLast?_singleton, List.getLast?_concat,
        Nat.add_sub_cancel] at hdet ⊢
      rw [if_neg (by omega : ¬ (j + 1 + 1 = 1))] at hdet
      rw [if_neg (by omega : ¬ ((0 : Nat) = j + 1))]
      rw [if_pos hdet]
      simp

/-- Reassociation helper: appending two snoc-ed entries. -/
theorem append_two_snoc {α : Type} (l : List α) (a b : α) :
    (l ++ [a]) ++ [b] = l ++ ([a] ++ [b]) := by simp

/-- Reassociation helper: two snoc-ed entries followed by a tail. -/
theorem append_two_snoc_tail {α : Type} (l : List α) (a b : α) (t : List α) :
    ((l ++ [a]) ++ [b]) ++ t = l ++ ([a] ++ ([b] ++ t)) := by simp

/-- The OP loop only ever appends to the transcript it is given. -/
theorem opLoop_extends (max_inferences : Nat) (patientResp staffResp : String → String)
    (detect : String → Bool) (enable_llm : Bool) (checkerPrompt checkerResp : String → String)
    (fuel : Nat) :
    ∀ (dialog : List DialogEntry) (calls : Nat),
      ∃ t, (OPSimulation.simLoop max_inferences patientResp staffResp detect enable_llm
        checkerPrompt checkerResp fuel dialog calls).1 = dialog ++ t := by
  induction fuel with
  | zero =>
      intro dialog calls
      exact ⟨[], by simp [OPSimulation.simLoop]⟩
  | succ f ih =>
      intro dialog calls
      simp only [OPSimulation.simLoop]
      repeat' split
      all_goals
        first
          | exact ⟨_, append_two_snoc _ _ _⟩
          | (obtain ⟨t, ht⟩ := ih _ _
             exact ⟨_, ht.trans (append_two_snoc_tail _ _ _ _)⟩)

/-- With the LLM checker disabled, if the deterministic detector rejects every
Staff reply the loop appends, the loop runs through all its fuel, appends one
Patient and one Staff turn per iteration, and never touches the checker-call
counter. -/
theorem opLoop_checker_disabled (max_inferences : Nat) (patientResp staffResp : String → String)
    (detect : String → Bool) (checkerPrompt checkerResp : String → String) (fuel : Nat) :
    ∀ (dialog : List DialogEntry) (calls : Nat),
      (∀ e ∈ (OPSimulation.simLoop max_inferences patientResp staffResp detect false
          checkerPrompt checkerResp fuel dialog calls).1.drop dialog.length,
        e.role = "Staff" → detect e.content = false) →
      (OPSimulation.simLoop max_inferences patientResp staffResp detect false
          checkerPrompt checkerResp fuel dialog calls).1.map DialogEntry.role
          = dialog.map DialogEntry.role
              ++ (List.replicate fuel (["Patient", "Staff"] : List String)).flatten ∧
      (OPSimulation.simLoop max_inferences patientResp staffResp detect false
          checkerPrompt checkerResp fuel dialog calls).2 = calls := by
  induction fuel with
  | zero =>
      intro dialog calls _
      exact ⟨by simp [OPSimulation.simLoop], by simp [OPSimulation.simLoop]⟩
  | succ f ih =>
      intro dialog calls hyp
      simp only [OPSimulation.simLoop, Bool.false_eq_true, if_false] at hyp ⊢
      generalize hp : patientResp (lastContent dialog) = pResp at hyp ⊢
      generalize hs :
        staffResp
          (if max_inferences - (f + 1) = max_inferences - 1 then
            lastContent (dialog ++ [({ role := "Patient", content := pResp } : DialogEntry)])
              ++ finalTurnSuffix
          else lastContent (dialog ++ [({ role := "Patient", content := pResp } : DialogEntry)]))
          = sResp at hyp ⊢
      by_cases hd : detect sResp = true
      · exfalso
        rw [if_pos hd] at hyp
        have hmem : ({ role := "Staff", content := sResp } : DialogEntry)
            ∈ (((dialog ++ [({ role := "Patient", content := pResp } : DialogEntry)])
                ++ [({ role := "Staff", content := sResp } : DialogEntry)]).drop dialog.length) := by
          rw [List.append_assoc, List.drop_left]
          simp
        have hfalse := hyp ({ role := "Staff", content := sResp } : DialogEntry) hmem rfl
        rw [hd] at hfalse
        cases hfalse
      · rw [Bool.not_eq_true] at hd
        rw [hd] at hyp ⊢
        simp only [Bool.false_eq_true, if_false] at hyp ⊢
        have hlen : ((dialog ++ [({ role := "Patient", content := pResp } : DialogEntry)])
            ++ [({ role := "Staff", content := sResp } : DialogEntry)]).length
            = dialog.length + 2 := by
          simp
        have hyp2 : ∀ e ∈ (OPSimulation.simLoop max_inferences patientResp staffResp detect false
            checkerPrompt checkerResp f
            ((dialog ++ [({ role := "Patient", content := pResp } : DialogEntry)])
              ++ [({ role := "Staff", content := sResp } : DialogEntry)]) calls).1.drop
              ((dialog ++ [({ role := "Patient", content := pResp } : DialogEntry)])
                ++ [({ role := "Staff", content := sResp } : DialogEntry)]).length,
            e.role = "Staff" → detect e.content = false := by
          intro e he hrole
          refine hyp e ?_ hrole
          have he2 : e ∈ ((OPSimulation.simLoop max_inferences patientResp staffResp detect false
              checkerPrompt checkerResp f
              ((dialog ++ [({ role := "Patient", content := pResp } : DialogEntry)])
                ++ [({ role := "Staff", content := sResp } : DialogEntry)]) calls).1.drop
                dialog.length).drop 2 := by
            rw [List.drop_drop, ← hlen]
            exact he
          exact List.drop_subset _ _ he2
        obtain ⟨hmap, hcalls⟩ := ih _ _ hyp2
        refine ⟨?_, hcalls⟩
        rw [hmap]
        simp [List.replicate_succ]

/-- Length of the transcript grown by a full `n`-iteration run. -/
theorem replicate_pair_flatten_length (n : Nat) :
    ((List.replicate n (["Patient", "Staff"] : List String)).flatten).length = 2 * n := by
  induction n with
  | zero => rfl
  | succ m ihm =>
      rw [List.replicate_succ, List.flatten_cons, List.length_append, ihm]
      simp only [List.length_cons, List.length_nil]
      omega

/-- C5.  With the LLM-based checker disabled, when the deterministic OP
detector fires on none of the Staff replies, `OPSimulation.simulate` runs for
exactly `max_inferences` iterations: the returned record (whose type has
exactly the three fields of the source's output dictionary) holds a transcript
of `1 + 2 * max_inferences` entries — the Staff greeting followed by
alternating Patient/Staff turns — together with the two agents' accumulated
token usages, and the termination-checker client is never invoked (the
instrumentation counter stays `0`). -/
theorem op_simulate_checker_disabled_full_run {τ : Type} (max_inferences : Nat)
    (staff_greet : String) (patientResp staffResp : String → String) (detect : String → Bool)
    (checkerPrompt checkerResp : String → String)
    (patient_token_usage admin_staff_token_usage : τ)
    (hdet : ∀ e ∈ (OPSimulation.simulate max_inferences staff_greet patientResp staffResp detect
        false checkerPrompt checkerResp patient_token_usage
        admin_staff_token_usage).1.dialog_history.drop 1,
      e.role = "Staff" → detect e.content = false) :
    (OPSimulation.simulate max_inferences staff_greet patientResp staffResp detect
        false checkerPrompt checkerResp patient_token_usage
        admin_staff_token_usage).1.dialog_history.map DialogEntry.role
      = "Staff" :: (List.replicate max_inferences (["Patient", "Staff"] : List String)).flatten ∧
    (OPSimulation.simulate max_inferences staff_greet patientResp staffResp detect
        false checkerPrompt checkerResp patient_token_usage
        admin_staff_token_usage).1.dialog_history.length = 1 + 2 * max_inferences ∧
    (OPSimulation.simulate max_inferences staff_greet patientResp staffResp detect
        false checkerPrompt checkerResp patient_token_usage admin_staff_token_usage).2 = 0 ∧
    (OPSimulation.simulate max_inferences staff_greet patientResp staffResp detect
        false checkerPrompt checkerResp patient_token_usage
        admin_staff_token_usage).1.patient_token_usage = patient_token_usage ∧
    (OPSimulation.simulate max_inferences staff_greet patientResp staffResp detect
        false checkerPrompt checkerResp patient_token_usage
        admin_staff_token_usage).1.admin_staff_token_usage = admin_staff_token_usage := by
  have key := opLoop_checker_disabled max_inferences patientResp staffResp detect checkerPrompt
    checkerResp max_inferences [({ role := "Staff", content := staff_greet } : DialogEntry)] 0
    hdet
  refine ⟨key.1.trans (by simp), ?_, key.2, rfl, rfl⟩
  have hl := congrArg List.length key.1
  simp only [List.length_map, List.length_append, List.length_singleton,
    replicate_pair_flatten_length] at hl
  exact hl

/-- Witness for C4: budget `4`, detector flagging every reply — the transcript
has exactly the greeting, one Patient turn and one Doctor turn. -/
theorem ed_simulate_first_reply_termination_witness :
    EDSimulation.simulate 4 "Hello, how can I help you?" (fun _ => "I have chest pain.")
        (fun _ => "My top5 differential diagnosis is ready.") (fun _ => true) false
        (fun s => s) (fun _ => "N")
      = [{ role := "Doctor", content := "Hello, how can I help you?" },
         { role := "Patient", content := "I have chest pain." },
         { role := "Doctor", content := "My top5 differential diagnosis is ready." }] :=
  (ed_simulate_first_reply_termination 4 "Hello, how can I help you?"
    (fun _ => "I have chest pain.") (fun _ => "My top5 differential diagnosis is ready.")
    (fun _ => true) false (fun s => s) (fun _ => "N") (by decide) rfl).trans rfl

/-- Witness for C5: budget `2` with a detector that never fires — a
5-entry Staff/Patient-alternating transcript, zero checker invocations, and
the two token-usage fields. -/
theorem op_simulate_checker_disabled_full_run_witness :
    (OPSimulation.simulate 2 "Which department do you need?" (fun _ => "I have a cough.")
        (fun _ => "Let me check.") (fun _ => false) false (fun s => s) (fun _ => "N")
        (10 : Nat) 20).1.dialog_history.map DialogEntry.role
      = "Staff" :: (List.replicate 2 (["Patient", "Staff"] : List String)).flatten ∧
    (OPSimulation.simulate 2 "Which department do you need?" (fun _ => "I have a cough.")
        (fun _ => "Let me check.") (fun _ => false) false (fun s => s) (fun _ => "N")
        (10 : Nat) 20).1.dialog_history.length = 1 + 2 * 2 ∧
    (OPSimulation.simulate 2 "Which department do you need?" (fun _ => "I have a cough.")
        (fun _ => "Let me check.") (fun _ => false) false (fun s => s) (fun _ => "N")
        (10 : Nat) 20).2 = 0 ∧
    (OPSimulation.simulate 2 "Which department do you need?" (fun _ => "I have a cough.")
        (fun _ => "Let me check.") (fun _ => false) false (fun s => s) (fun _ => "N")
        (10 : Nat) 20).1.patient_token_usage = 10 ∧
    (OPSimulation.simulate 2 "Which department do you need?" (fun _ => "I have a cough.")
        (fun _ => "Let me check.") (fun _ => false) false (fun s => s) (fun _ => "N")
        (10 : Nat) 20).1.admin_staff_token_usage = 20 :=
  op_simulate_checker_disabled_full_run 2 "Which department do you need?"
    (fun _ => "I have a cough.") (fun _ => "Let me check.") (fun _ => false) (fun s => s)
    (fun _ => "N") 10 20 (fun _ _ _ => rfl)

/-- A non-system multi-turn exchange leaves the system messages of an
OpenAI-style history unchanged. -/
theorem systemMsgs_append_user_assistant (h : List OAIMsg) (u r : String) :
    systemMsgs ((h ++ GPTClient.makePayload u)
        ++ [{ role := "assistant", content := OAIContent.str r }]) = systemMsgs h := by
  simp [systemMsgs, GPTClient.makePayload, List.filter_append]

/-- Step lemma: a multi-turn call on a session with a fixed system prompt and
a truthy new prompt discards the prompt, warns exactly on the first such
occurrence, and clears the first-turn flag. -/
theorem gpt_call_discard (c : GPTClient) (s u r : String)
    (h1 : c.multi_turn_system_prompt_already_set = true) (h2 : s ≠ "") :
    c.multiTurnCall (some s) u r
      = ({ histories := (c.histories ++ GPTClient.makePayload u)
            ++ [{ role := "assistant", content := OAIContent.str r }],
           multi_turn_system_prompt_already_set := true,
           first_turn := false }, r, if c.first_turn then 1 else 0) := by
  simp [GPTClient.multiTurnCall, truthy, h1, h2]

/-- Step lemma: a multi-turn call without a truthy system prompt only appends
the user payload and the reply. -/
theorem gpt_call_nosys (c : GPTClient) (sys : Option String) (u r : String)
    (hs : truthy sys = false) :
    c.multiTurnCall sys u r
      = ({ histories := (c.histories ++ GPTClient.makePayload u)
            ++ [{ role := "assistant", content := OAIContent.str r }],
           multi_turn_system_prompt_already_set := c.multi_turn_system_prompt_already_set,
           first_turn := c.first_turn }, r, 0) := by
  simp [GPTClient.multiTurnCall, hs]

/-- Step lemma: on a session with no fixed system prompt, a truthy prompt is
accepted, appended as a system entry at the end of the current history, and
the flag is set. -/
theorem gpt_call_newsys (c : GPTClient) (s u r : String)
    (h1 : c.multi_turn_system_prompt_already_set = false) (h2 : s ≠ "") :
    c.multiTurnCall (some s) u r
      = ({ histories := ((c.histories ++ [{ role := "system", content := OAIContent.str s }])
            ++ GPTClient.makePayload u)
            ++ [{ role := "assistant", content := OAIContent.str r }],
           multi_turn_system_prompt_already_set := true,
           first_turn := c.first_turn }, r, 0) := by
  simp [GPTClient.multiTurnCall, truthy, h1, h2]

/-- Step lemma: Gemini multi-turn call on an existing chat with a fixed
session and a truthy new prompt discards the prompt and warns exactly on the
first such occurrence. -/
theorem gemini_call_discard (c : GeminiClient) (ch : GeminiChat) (s u r : String)
    (hch : c.chat = some ch) (h1 : c.multi_turn_chat_already_set = true) (h2 : s ≠ "") :
    c.multiTurnCall (some s) u r
      = ({ chat := some { ch with history := ch.history ++ GeminiClient.makePayload u
             ++ [{ role := "model", parts := [r] }] },
           multi_turn_chat_already_set := true,
           first_turn := false }, r, if c.first_turn then 1 else 0) := by
  simp [GeminiClient.multiTurnCall, truthy, h1, h2, hch]

/-- Step lemma: Gemini multi-turn call on an existing chat without a truthy
system prompt only extends the chat history. -/
theorem gemini_call_nosys (c : GeminiClient) (ch : GeminiChat) (sys : Option String) (u r : String)
    (hch : c.chat = some ch) (hs : truthy sys = false) :
    c.multiTurnCall sys u r
      = ({ chat := some { ch with history := ch.history ++ GeminiClient.makePayload u
             ++ [{ role := "model", parts := [r] }] },
           multi_turn_chat_already_set := c.multi_turn_chat_already_set,
           first_turn := c.first_turn }, r, 0) := by
  simp [GeminiClient.multiTurnCall, hs, hch]

/-- Trace invariant for the OpenAI-compatible adapters: once the system prompt
is fixed, no later multi-turn call changes the set of system messages, the
flag stays set, and the number of warnings over the whole trace is one exactly
when the session was still on its first (warning-eligible) turn and at least
one call supplied a truthy prompt. -/
theorem gpt_trace_already_set (tr : List (Option String × String × String)) :
    ∀ c : GPTClient, c.multi_turn_system_prompt_already_set = true →
      systemMsgs (GPTClient.runTrace c tr).1.histories = systemMsgs c.histories ∧
      (GPTClient.runTrace c tr).1.multi_turn_system_prompt_already_set = true ∧
      (GPTClient.runTrace c tr).2 = (if c.first_turn then min 1 (countTruthy tr) else 0) := by
  induction tr with
  | nil =>
      intro c h
      refine ⟨rfl, h, ?_⟩
      simp [GPTClient.runTrace, countTruthy]
  | cons t rest ih =>
      obtain ⟨sys, usr, rep⟩ := t
      intro c h
      by_cases hs : truthy sys = true
      · obtain ⟨s, rfl⟩ : ∃ s, sys = some s := by
          cases sys with
          | none => simp [truthy] at hs
          | some s => exact ⟨s, rfl⟩
        have hne : s ≠ "" := by simpa [truthy] using hs
        simp only [GPTClient.runTrace]
        rw [gpt_call_discard c s usr rep h hne]
        obtain ⟨ihm, ihf, ihw⟩ := ih
          ⟨(c.histories ++ GPTClient.makePayload usr)
            ++ [{ role := "assistant", content := OAIContent.str rep }], true, false⟩ rfl
        refine ⟨ihm.trans (systemMsgs_append_user_assistant _ _ _), ihf, ?_⟩
        rw [ihw]
        have hc : countTruthy ((some s, usr, rep) :: rest) = countTruthy rest + 1 := by
          simp [countTruthy, hs]
        rw [hc]
        cases hft : c.first_turn <;> simp
      · rw [Bool.not_eq_true] at hs
        simp only [GPTClient.runTrace]
        rw [gpt_call_nosys c sys usr rep hs]
        obtain ⟨ihm, ihf, ihw⟩ := ih
          ⟨(c.histories ++ GPTClient.makePayload usr)
            ++ [{ role := "assistant", content := OAIContent.str rep }],
           c.multi_turn_system_prompt_already_set, c.first_turn⟩ h
        refine ⟨ihm.trans (systemMsgs_append_user_assistant _ _ _), ihf, ?_⟩
        rw [ihw]
        have hc : countTruthy ((sys, usr, rep) :: rest) = countTruthy rest := by
          simp [countTruthy, hs]
        rw [hc]
        simp

/-- Trace invariant for the Gemini adapter: once the chat session exists and
is marked set, no later multi-turn call changes its system instruction, and
warnings behave as for the OpenAI-compatible adapters. -/
theorem gemini_trace_already_set (tr : List (Option String × String × String)) :
    ∀ (c : GeminiClient) (ch : GeminiChat), c.chat = some ch →
      c.multi_turn_chat_already_set = true →
      ∃ ch2, (GeminiClient.runTrace c tr).1.chat = some ch2 ∧
        ch2.system_instruction = ch.system_instruction ∧
        (GeminiClient.runTrace c tr).1.multi_turn_chat_already_set = true ∧
        (GeminiClient.runTrace c tr).2 = (if c.first_turn then min 1 (countTruthy tr) else 0) := by
  induction tr with
  | nil =>
      intro c ch hch h
      refine ⟨ch, hch, rfl, h, ?_⟩
      simp [GeminiClient.runTrace, countTruthy]
  | cons t rest ih =>
      obtain ⟨sys, usr, rep⟩ := t
      intro c ch hch h
      by_cases hs : truthy sys = true
      · obtain ⟨s, rfl⟩ : ∃ s, sys = some s := by
          cases sys with
          | none => simp [truthy] at hs
          | some s => exact ⟨s, rfl⟩
        have hne : s ≠ "" := by simpa [truthy] using hs
        simp only [GeminiClient.runTrace]
        rw [gemini_call_discard c ch s usr rep hch h hne]
        obtain ⟨ch2, hch2, hinstr, hf, hw⟩ := ih
          ⟨some { ch with history := ch.history ++ GeminiClient.makePayload usr
             ++ [{ role := "model", parts := [rep] }] }, true, false⟩
          { ch with history := ch.history ++ GeminiClient.makePayload usr
             ++ [{ role := "model", parts := [rep] }] } rfl rfl
        refine ⟨ch2, hch2, hinstr, hf, ?_⟩
        rw [hw]
        have hc : countTruthy ((some s, usr, rep) :: rest) = countTruthy rest + 1 := by
          simp [countTruthy, hs]
        rw [hc]
        cases hft : c.first_turn <;> simp
      · rw [Bool.not_eq_true] at hs
        simp only [GeminiClient.runTrace]
        rw [gemini_call_nosys c ch sys usr rep hch hs]
        obtain ⟨ch2, hch2, hinstr, hf, hw⟩ := ih
          ⟨some { ch with history := ch.history ++ GeminiClient.makePayload usr
             ++ [{ role := "model", parts := [rep] }] }, c.multi_turn_chat_already_set,
           c.first_turn⟩
          { ch with history := ch.history ++ GeminiClient.makePayload usr
             ++ [{ role := "model", parts := [rep] }] } rfl h
        refine ⟨ch2, hch2, hinstr, hf, ?_⟩
        rw [hw]
        have hc : countTruthy ((sys, usr, rep) :: rest) = countTruthy rest := by
          simp [countTruthy, hs]
        rw [hc]
        simp

/-- C3.  For every multi-turn session of any adapter in which a system prompt
has been fixed (the already-set flag holds; for Gemini, the chat session
exists), any further sequence of multi-turn calls leaves the session's system
configuration untouched — the OpenAI-style history keeps exactly its existing
system messages, and the Gemini chat keeps its system instruction — and the
total number of guard warnings over the whole sequence is `min 1` of the
number of calls supplying a non-empty system prompt when the session is still
warning-eligible (its first-turn flag set), i.e. exactly one warning in total,
emitted on the first discarded prompt only.  The enterprise-gateway adapter is
line-for-line identical to the direct one, and the Vertex adapter is modelled
from spec §4.2 as contract-identical to the consumer Gemini adapter. -/
theorem multi_turn_single_system_prompt :
    (∀ (c : GPTClient) (tr : List (Option String × String × String)),
      c.multi_turn_system_prompt_already_set = true →
      systemMsgs (GPTClient.runTrace c tr).1.histories = systemMsgs c.histories ∧
      (GPTClient.runTrace c tr).2 = (if c.first_turn then min 1 (countTruthy tr) else 0)) ∧
    (∀ (c : GPTClient) (tr : List (Option String × String × String)),
      c.multi_turn_system_prompt_already_set = true →
      systemMsgs (GPTAzureClient.runTrace c tr).1.histories = systemMsgs c.histories ∧
      (GPTAzureClient.runTrace c tr).2 = (if c.first_turn then min 1 (countTruthy tr) else 0)) ∧
    (∀ (c : GeminiClient) (ch : GeminiChat) (tr : List (Option String × String × String)),
      c.chat = some ch → c.multi_turn_chat_already_set = true →
      ∃ ch2, (GeminiClient.runTrace c tr).1.chat = some ch2 ∧
        ch2.system_instruction = ch.system_instruction ∧
        (GeminiClient.runTrace c tr).2 = (if c.first_turn then min 1 (countTruthy tr) else 0)) ∧
    (∀ (c : GeminiClient) (ch : GeminiChat) (tr : List (Option String × String × String)),
      c.chat = some ch → c.multi_turn_chat_already_set = true →
      ∃ ch2, (GeminiVertexClient.runTrace c tr).1.chat = some ch2 ∧
        ch2.system_instruction = ch.system_instruction ∧
        (GeminiVertexClient.runTrace c tr).2 = (if c.first_turn then min 1 (countTruthy tr) else 0)) := by
  refine ⟨?_, ?_, ?_, ?_⟩
  · intro c tr h
    obtain ⟨hm, _, hw⟩ := gpt_trace_already_set tr c h
    exact ⟨hm, hw⟩
  · intro c tr h
    obtain ⟨hm, _, hw⟩ := gpt_trace_already_set tr c h
    exact ⟨hm, hw⟩
  · intro c ch tr hch h
    obtain ⟨ch2, hch2, hinstr, _, hw⟩ := gemini_trace_already_set tr c ch hch h
    exact ⟨ch2, hch2, hinstr, hw⟩
  · intro c ch tr hch h
    obtain ⟨ch2, hch2, hinstr, _, hw⟩ := gemini_trace_already_set tr c ch hch h
    exact ⟨ch2, hch2, hinstr, hw⟩

/-- Witness for C3: a direct-OpenAI session that fixed `"S1"` and then
receives two further calls with different non-empty prompts keeps `"S1"` as
its only system message and logs exactly one warning; a Gemini session whose
chat was created with instruction `"S1"` behaves the same. -/
theorem multi_turn_single_system_prompt_witness :
    (systemMsgs (GPTClient.runTrace
        ⟨[{ role := "system", content := OAIContent.str "S1" },
          { role := "user", content := OAIContent.parts ["u1"] },
          { role := "assistant", content := OAIContent.str "r1" }], true, true⟩
        [(some "S2", "u2", "r2"), (some "S3", "u3", "r3")]).1.histories
      = systemMsgs [{ role := "system", content := OAIContent.str "S1" },
          { role := "user", content := OAIContent.parts ["u1"] },
          { role := "assistant", content := OAIContent.str "r1" }] ∧
     (GPTClient.runTrace
        ⟨[{ role := "system", content := OAIContent.str "S1" },
          { role := "user", content := OAIContent.parts ["u1"] },
          { role := "assistant", content := OAIContent.str "r1" }], true, true⟩
        [(some "S2", "u2", "r2"), (some "S3", "u3", "r3")]).2
      = (if true then min 1 (countTruthy [(some "S2", "u2", "r2"), (some "S3", "u3", "r3")])
         else 0)) ∧
    (∃ ch2, (GeminiClient.runTrace
        ⟨some ⟨some "S1", [⟨"user", ["u1"]⟩, ⟨"model", ["r1"]⟩]⟩, true, true⟩
        [(some "S2", "u2", "r2")]).1.chat = some ch2 ∧
      ch2.system_instruction = (⟨some "S1", [⟨"user", ["u1"]⟩, ⟨"model", ["r1"]⟩]⟩ : GeminiChat).system_instruction ∧
      (GeminiClient.runTrace
        ⟨some ⟨some "S1", [⟨"user", ["u1"]⟩, ⟨"model", ["r1"]⟩]⟩, true, true⟩
        [(some "S2", "u2", "r2")]).2
      = (if true then min 1 (countTruthy [(some "S2", "u2", "r2")]) else 0)) :=
  ⟨multi_turn_single_system_prompt.1
      ⟨[{ role := "system", content := OAIContent.str "S1" },
        { role := "user", content := OAIContent.parts ["u1"] },
        { role := "assistant", content := OAIContent.str "r1" }], true, true⟩
      [(some "S2", "u2", "r2"), (some "S3", "u3", "r3")] rfl,
   multi_turn_single_system_prompt.2.2.1
      ⟨some ⟨some "S1", [⟨"user", ["u1"]⟩, ⟨"model", ["r1"]⟩]⟩, true, true⟩
      ⟨some "S1", [⟨"user", ["u1"]⟩, ⟨"model", ["r1"]⟩]⟩
      [(some "S2", "u2", "r2")] rfl rfl⟩

/-- Multi-turn calls that never supply a system prompt leave the
OpenAI-compatible already-set flag clear and add no system-role entry. -/
theorem gpt_trace_none_prompts (pre : List (String × String)) :
    ∀ c : GPTClient, c.multi_turn_system_prompt_already_set = false →
      (∀ m ∈ c.histories, m.role ≠ "system") →
      (GPTClient.runTrace c
          (pre.map (fun p => ((none : Option String), p.1, p.2)))).1.multi_turn_system_prompt_already_set
        = false ∧
      ∀ m ∈ (GPTClient.runTrace c
          (pre.map (fun p => ((none : Option String), p.1, p.2)))).1.histories,
        m.role ≠ "system" := by
  induction pre with
  | nil =>
      intro c h hm
      exact ⟨h, hm⟩
  | cons p rest ih =>
      obtain ⟨u, r⟩ := p
      intro c h hm
      simp only [List.map_cons, GPTClient.runTrace]
      rw [gpt_call_nosys c none u r rfl]
      apply ih
      · exact h
      · intro m hmem
        simp only [GPTClient.makePayload, List.mem_append, List.mem_singleton] at hmem
        rcases hmem with (hmem1 | rfl) | rfl
        · exact hm m hmem1
        · simp
        · simp

/-- C10.  The OpenAI-compatible guard tracks only whether a non-empty system
prompt was supplied, not whether history exists: after any number of
multi-turn calls that passed no system prompt from a fresh session, the
history contains no system entry, and a later call's non-empty prompt is
accepted and appended as a system-role entry after the existing
user/assistant messages (the enterprise-gateway adapter is identical).  The
Gemini adapter instead sets its flag when the chat is created on the first
multi-turn call even without a prompt, so a prompt supplied on the second call
is discarded — the chat's system instruction stays `none` — with a warning. -/
theorem system_prompt_guard_flag_vs_history :
    (∀ (pre : List (String × String)) (S u r : String), S ≠ "" →
      (∀ m ∈ (GPTClient.runTrace GPTClient.fresh
          (pre.map (fun p => ((none : Option String), p.1, p.2)))).1.histories,
        m.role ≠ "system") ∧
      ((GPTClient.runTrace GPTClient.fresh
          (pre.map (fun p => ((none : Option String), p.1, p.2)))).1.multiTurnCall
          (some S) u r).1.histories
        = (((GPTClient.runTrace GPTClient.fresh
              (pre.map (fun p => ((none : Option String), p.1, p.2)))).1.histories
            ++ [{ role := "system", content := OAIContent.str S }])
            ++ GPTClient.makePayload u)
            ++ [{ role := "assistant", content := OAIContent.str r }]) ∧
    (∀ (pre : List (String × String)) (S u r : String), S ≠ "" →
      (∀ m ∈ (GPTAzureClient.runTrace GPTClient.fresh
          (pre.map (fun p => ((none : Option String), p.1, p.2)))).1.histories,
        m.role ≠ "system") ∧
      (GPTAzureClient.multiTurnCall (GPTAzureClient.runTrace GPTClient.fresh
          (pre.map (fun p => ((none : Option String), p.1, p.2)))).1
          (some S) u r).1.histories
        = (((GPTAzureClient.runTrace GPTClient.fresh
              (pre.map (fun p => ((none : Option String), p.1, p.2)))).1.histories
            ++ [{ role := "system", content := OAIContent.str S }])
            ++ GPTClient.makePayload u)
            ++ [{ role := "assistant", content := OAIContent.str r }]) ∧
    (∀ (u1 r1 S u2 r2 : String), S ≠ "" →
      (GeminiClient.fresh.multiTurnCall none u1 r1).1.multi_turn_chat_already_set = true ∧
      ((GeminiClient.fresh.multiTurnCall none u1 r1).1.multiTurnCall
          (some S) u2 r2).1.chat.map GeminiChat.system_instruction = some none ∧
      ((GeminiClient.fresh.multiTurnCall none u1 r1).1.multiTurnCall
          (some S) u2 r2).2.2 = 1) := by
  have hgpt : ∀ (pre : List (String × String)) (S u r : String), S ≠ "" →
      (∀ m ∈ (GPTClient.runTrace GPTClient.fresh
          (pre.map (fun p => ((none : Option String), p.1, p.2)))).1.histories,
        m.role ≠ "system") ∧
      ((GPTClient.runTrace GPTClient.fresh
          (pre.map (fun p => ((none : Option String), p.1, p.2)))).1.multiTurnCall
          (some S) u r).1.histories
        = (((GPTClient.runTrace GPTClient.fresh
              (pre.map (fun p => ((none : Option String), p.1, p.2)))).1.histories
            ++ [{ role := "system", content := OAIContent.str S }])
            ++ GPTClient.makePayload u)
            ++ [{ role := "assistant", content := OAIContent.str r }] := by
    intro pre S u r hS
    obtain ⟨hflag, hnosys⟩ := gpt_trace_none_prompts pre GPTClient.fresh rfl (by simp [GPTClient.fresh])
    refine ⟨hnosys, ?_⟩
    rw [gpt_call_newsys _ S u r hflag hS]
  refine ⟨hgpt, hgpt, ?_⟩
  intro u1 r1 S u2 r2 hS
  have hc1 : (GeminiClient.fresh.multiTurnCall none u1 r1).1
      = ⟨some ⟨none, GeminiClient.makePayload u1 ++ [{ role := "model", parts := [r1] }]⟩,
         true, true⟩ := rfl
  refine ⟨by rw [hc1], ?_, ?_⟩
  · rw [hc1, gemini_call_discard _
      ⟨none, GeminiClient.makePayload u1 ++ [{ role := "model", parts := [r1] }]⟩
      S u2 r2 rfl rfl hS]
    rfl
  · rw [hc1, gemini_call_discard _
      ⟨none, GeminiClient.makePayload u1 ++ [{ role := "model", parts := [r1] }]⟩
      S u2 r2 rfl rfl hS]
    rfl

/-- Witness for C10: after one promptless multi-turn call from fresh, the
direct-OpenAI adapter accepts a later `"S2"` prompt and appends it after the
user/assistant entries, while the Gemini adapter discards it (chat instruction
stays `none`) with one warning. -/
theorem system_prompt_guard_flag_vs_history_witness :
    ((∀ m ∈ (GPTClient.runTrace GPTClient.fresh
        ([("hello", "hi")].map (fun p => ((none : Option String), p.1, p.2)))).1.histories,
      m.role ≠ "system") ∧
     ((GPTClient.runTrace GPTClient.fresh
        ([("hello", "hi")].map (fun p => ((none : Option String), p.1, p.2)))).1.multiTurnCall
        (some "S2") "u2" "r2").1.histories
      = (((GPTClient.runTrace GPTClient.fresh
            ([("hello", "hi")].map (fun p => ((none : Option String), p.1, p.2)))).1.histories
          ++ [{ role := "system", content := OAIContent.str "S2" }])
          ++ GPTClient.makePayload "u2")
          ++ [{ role := "assistant", content := OAIContent.str "r2" }]) ∧
    ((GeminiClient.fresh.multiTurnCall none "u1" "r1").1.multi_turn_chat_already_set = true ∧
     ((GeminiClient.fresh.multiTurnCall none "u1" "r1").1.multiTurnCall
        (some "S2") "u2" "r2").1.chat.map GeminiChat.system_instruction = some none ∧
     ((GeminiClient.fresh.multiTurnCall none "u1" "r1").1.multiTurnCall
        (some "S2") "u2" "r2").2.2 = 1) :=
  ⟨system_prompt_guard_flag_vs_history.1 [("hello", "hi")] "S2" "u2" "r2" (by decide),
   system_prompt_guard_flag_vs_history.2.2 "u1" "r1" "S2" "u2" "r2" (by decide)⟩
